import Mathlib

/-!
Shallow embedding of the user-account logic of the repository
(src/api/server/models/User.ts), for checking the specification claims.

The Mongoose collection is modelled as a list of user documents; a `findOne`
is `List.find?`; a `save` of an existing document replaces the stored
document with the same `_id`; creating a document appends it.  External
collaborators (the Invitation collection, the EmailTemplate collection, the
AWS-SES email sender, the Mailchimp subscriber, the clock, the ObjectId
generator) are captured in an environment record `Env`.  Thrown errors are
modelled with `Except`; the fire-and-forget side effects (email sends,
mailing-list subscriptions, logged errors) are recorded in an `Effects`
record.  The mongoose-field-encryption plugin (an external library) encrypts
the two token maps at rest and the code decrypts them before returning, so a
token value round-trips; the model therefore keeps the decrypted view and
treats encrypt-on-save / decrypt-on-return as the identity transformation.
-/

namespace SaaS

/-- OAuth provider tag.  The schema has exactly a `googleId` and a
`microsoftId` field, and `auth.ts` calls `signInOrSignUp` with the literal
type strings `google` and `microsoft`, so the tag is finite. -/
inductive PType
  | google
  | microsoft
deriving DecidableEq, Repr

/-- The provider key string, as interpolated into the field paths
`oAuthAccessToken.${type}` and `oAuthRefreshToken.${type}`. -/
def PType.key : PType → String
  | .google => "google"
  | .microsoft => "microsoft"

/-- JavaScript falsiness for an optional string value: `undefined` and the
empty string are falsy (used by the `!oauthId`, `!user.get(...)`,
`!userId` guards in User.ts). -/
def strFalsy : Option String → Bool
  | none => true
  | some s => s.isEmpty

/-- JavaScript truthiness for an optional string value. -/
def strTruthy (o : Option String) : Bool := !(strFalsy o)

/-- A user document, restricted to the schema fields the sign-in / sign-up
and permission logic reads or writes.  The two mongoose `Map` fields are
association lists from provider key to token. -/
structure UserDoc where
  id : String
  email : String
  slug : String
  createdAt : Nat
  defaultTeamSlug : String
  displayName : Option String
  avatarUrl : Option String
  googleId : Option String
  microsoftId : Option String
  oAuthAccessToken : List (String × String)
  oAuthRefreshToken : List (String × String)
deriving DecidableEq, Repr

/-- Reading the dynamic field `${type}Id` (`user.get(oAuthFields.Id)`). -/
def UserDoc.providerId (u : UserDoc) (ty : PType) : Option String :=
  match ty with
  | .google => u.googleId
  | .microsoft => u.microsoftId

/-- Writing the dynamic field `${type}Id` (`user.set(oAuthFields.Id, v)`). -/
def UserDoc.setProviderId (u : UserDoc) (ty : PType) (v : String) : UserDoc :=
  match ty with
  | .google => { u with googleId := some v }
  | .microsoft => { u with microsoftId := some v }

/-- Mongoose `Map.set`: insert or replace the entry for a key. -/
def mapSet : List (String × String) → String → String → List (String × String)
  | [], k, v => [(k, v)]
  | (k0, v0) :: rest, k, v =>
      if k0 = k then (k, v) :: rest else (k0, v0) :: mapSet rest k v

/-- Mongoose `Map.get`: look a key up. -/
def mapGet (m : List (String × String)) (k : String) : Option String :=
  (m.find? (fun p => p.1 == k)).map (fun p => p.2)

/-- The `oauthToken` argument object `{ accessToken?, refreshToken? }`. -/
structure OauthToken where
  accessToken : Option String
  refreshToken : Option String
deriving DecidableEq, Repr

/-- The named arguments of `signInOrSignUp`.  `oauthToken = none` models an
absent or empty token object, exactly the case in which lodash
`_.isEmpty(oauthToken)` holds; `some tok` models an object that has keys. -/
structure SignInArgs where
  oauthId : Option String
  email : String
  oauthToken : Option OauthToken
  displayName : String
  avatarUrl : Option String
deriving DecidableEq, Repr

/-- External collaborators of User.ts, fixed for the duration of one call:
the number of pending Invitation documents per email
(`Invitation.countDocuments`), whether the `welcome` EmailTemplate document
exists (the `EmailTemplate.findOne` lookup of the welcome template), whether the AWS-SES
send and the Mailchimp subscribe succeed, the current time (`new Date()`)
and the ObjectId mongoose assigns to a freshly constructed document. -/
structure Env where
  invitationCount : String → Nat
  hasWelcomeTemplate : Bool
  sendEmailOk : Bool
  subscribeOk : Bool
  now : Nat
  newId : String

/-- The observable fire-and-forget side effects of one call: recipients for
which `sendEmail` was invoked, recipients for which it succeeded, emails
subscribed to the mailing list, and logged error labels. -/
structure Effects where
  emailAttempts : List String := []
  sentEmails : List String := []
  subscribed : List String := []
  loggedErrors : List String := []
deriving DecidableEq, Repr

/-- Result of one stateful call: the returned value or thrown error, the
user collection after the call, and the recorded side effects. -/
structure Outcome (α : Type) where
  result : Except String α
  store : List UserDoc
  effects : Effects

/-- Modelled from the spec: `generateSlug` (src/api/server/utils/slugify.ts,
which is not among the provided sources) returns, per the spec, a URL-safe
unique string derived from the display name: a slug that no stored user
already has.  The model returns the name itself when it is free and
otherwise pads it past the length of every taken slug, which guarantees
freshness. -/
def maxSlugLen : List String → Nat
  | [] => 0
  | s :: rest => max s.length (maxSlugLen rest)

/-- Padding used by the modelled `generateSlug` to escape every taken slug. -/
def padToFresh (base : String) (taken : List String) : String :=
  base ++ String.mk (List.replicate (maxSlugLen taken + 1) 'x')

/-- Modelled from the spec: unique-slug generation from a base name over the
current user collection (see `maxSlugLen`). -/
def generateSlug (store : List UserDoc) (name : String) : String :=
  if name ∈ store.map (fun u => u.slug) then
    padToFresh name (store.map (fun u => u.slug))
  else name

/-- The `findOne({ $or: [ { email }, { [oAuthFields.Id]: oauthId } ] })`
lookup: first stored user whose email matches or whose `${type}Id` matches. -/
def findUser (store : List UserDoc) (ty : PType) (email oauthId : String) :
    Option UserDoc :=
  store.find? (fun u => u.email == email || u.providerId ty == some oauthId)

/-- `user.save()` for an already-stored document: replace the stored
document carrying the same `_id`. -/
def saveUser (store : List UserDoc) (u : UserDoc) : List UserDoc :=
  store.map (fun v => if v.id == u.id then u else v)

/-- Backfill of the provider id on the found user:
`if (!user.get(oAuthFields.Id)) user.set(oAuthFields.Id, oauthId)`. -/
def backfillId (ty : PType) (oid : String) (u : UserDoc) : UserDoc :=
  if strFalsy (u.providerId ty) then u.setProviderId ty oid else u

/-- `if (oauthToken.accessToken) user.set(oAuthFields.AccessToken, ...)`:
overwrite the per-provider access-token entry when the supplied value is
truthy. -/
def setAccess (ty : PType) (tok : OauthToken) (u : UserDoc) : UserDoc :=
  if strTruthy tok.accessToken then
    { u with oAuthAccessToken :=
        mapSet u.oAuthAccessToken ty.key (tok.accessToken.getD "") }
  else u

/-- `if (oauthToken.refreshToken) user.set(oAuthFields.RefreshToken, ...)`:
overwrite the per-provider refresh-token entry when the supplied value is
truthy. -/
def setRefresh (ty : PType) (tok : OauthToken) (u : UserDoc) : UserDoc :=
  if strTruthy tok.refreshToken then
    { u with oAuthRefreshToken :=
        mapSet u.oAuthRefreshToken ty.key (tok.refreshToken.getD "") }
  else u

/-- The merge performed on a found user when the token object is non-empty:
backfill the provider id, then overwrite the supplied token entries. -/
def mergeOauth (ty : PType) (oid : String) (tok : OauthToken) (u : UserDoc) :
    UserDoc :=
  setRefresh ty tok (setAccess ty tok (backfillId ty oid u))

/-- The `new User({ createdAt, email, displayName, avatarUrl, slug,
defaultTeamSlug: '' })` document literal of the not-found branch of
`signInOrSignUp`. -/
def newOauthBase (env : Env) (store : List UserDoc) (a : SignInArgs) :
    UserDoc :=
  { id := env.newId
    createdAt := env.now
    email := a.email
    displayName := some a.displayName
    avatarUrl := a.avatarUrl
    slug := generateSlug store a.displayName
    defaultTeamSlug := ""
    googleId := none
    microsoftId := none
    oAuthAccessToken := []
    oAuthRefreshToken := [] }

/-- The document built in the not-found branch of `signInOrSignUp`: the
fresh document, the unconditional provider-id set, then the conditional
token sets (when the token object has keys). -/
def newOauthUser (env : Env) (store : List UserDoc) (ty : PType)
    (a : SignInArgs) : UserDoc :=
  match a.oauthToken with
  | none => (newOauthBase env store a).setProviderId ty (a.oauthId.getD "")
  | some tok =>
      setRefresh ty tok (setAccess ty tok
        ((newOauthBase env store a).setProviderId ty (a.oauthId.getD "")))

/-- The tail shared by the two sign-up paths, run after the new user has
been persisted into `store1`: count invitations, look the `welcome`
template up (throwing if it is missing, the new user staying persisted),
send the welcome email unless an invitation exists (a send failure being
logged, not raised), then subscribe to the mailing list best-effort, and
return `ret`. -/
def welcomeFlow {α : Type} (env : Env) (store1 : List UserDoc)
    (email : String) (ret : α) : Outcome α :=
  let hasInvitation : Bool := decide (0 < env.invitationCount email)
  if env.hasWelcomeTemplate then
    let e1 : Effects :=
      if hasInvitation then {}
      else if env.sendEmailOk then
        { emailAttempts := [email], sentEmails := [email] }
      else
        { emailAttempts := [email], loggedErrors := ["Email sending error"] }
    let e2 : Effects :=
      if env.subscribeOk then { e1 with subscribed := [email] }
      else { e1 with loggedErrors := e1.loggedErrors ++ ["Mailchimp error"] }
    { result := Except.ok ret, store := store1, effects := e2 }
  else
    { result := Except.error "welcome Email template not found"
      store := store1
      effects := {} }

/-- `UserClass.signInOrSignUp` (User.ts lines 325-430). -/
def signInOrSignUp (env : Env) (store : List UserDoc) (ty : PType)
    (a : SignInArgs) : Outcome UserDoc :=
  if strFalsy a.oauthId then
    { result := Except.error "oauthId is required", store := store,
      effects := {} }
  else
    let oid := a.oauthId.getD ""
    match findUser store ty a.email oid with
    | some user =>
        match a.oauthToken with
        | none => { result := Except.ok user, store := store, effects := {} }
        | some tok =>
            let u := mergeOauth ty oid tok user
            { result := Except.ok u, store := saveUser store u, effects := {} }
    | none =>
        let nu := newOauthUser env store ty a
        welcomeFlow env (store ++ [nu]) a.email nu

/-- The projection of a user document to the public-field allowlist
(`_.pick(newUser, this.publicFields())`), restricted to the modelled
fields; the token maps, the provider ids and `createdAt` are not public. -/
structure PublicUser where
  id : String
  displayName : Option String
  email : String
  avatarUrl : Option String
  slug : String
  defaultTeamSlug : String
deriving DecidableEq, Repr

/-- Apply the public-field projection. -/
def pickPublicFields (u : UserDoc) : PublicUser :=
  { id := u.id
    displayName := u.displayName
    email := u.email
    avatarUrl := u.avatarUrl
    slug := u.slug
    defaultTeamSlug := u.defaultTeamSlug }

/-- The document created by `signUpByEmail`:
`this.create({ _id: uid, createdAt, email, slug, defaultTeamSlug: '' })`
with the slug generated from the email address. -/
def newEmailUser (env : Env) (store : List UserDoc) (uid email : String) :
    UserDoc :=
  { id := uid
    createdAt := env.now
    email := email
    displayName := none
    avatarUrl := none
    slug := generateSlug store email
    defaultTeamSlug := ""
    googleId := none
    microsoftId := none
    oAuthAccessToken := []
    oAuthRefreshToken := [] }

/-- `UserClass.signUpByEmail` (User.ts lines 432-483). -/
def signUpByEmail (env : Env) (store : List UserDoc) (uid email : String) :
    Outcome PublicUser :=
  match store.find? (fun u => u.email == email) with
  | some _ =>
      { result := Except.error "User already exists", store := store,
        effects := {} }
  | none =>
      let nu := newEmailUser env store uid email
      welcomeFlow env (store ++ [nu]) email (pickPublicFields nu)

/-- A Team document, restricted to the fields the permission check reads
(`Team.findById` with a projection to memberIds). -/
structure TeamDoc where
  id : String
  memberIds : List String
deriving DecidableEq, Repr

/-- `UserClass.checkPermissionAndGetTeam` (User.ts lines 513-527).  The two
ids are optional strings so that the JavaScript falsiness guard
`if (!userId || !teamId)` is representable. -/
def checkPermissionAndGetTeam (teams : List TeamDoc)
    (userId teamId : Option String) : Except String TeamDoc :=
  if strFalsy userId || strFalsy teamId then
    Except.error "Bad data"
  else
    match teams.find? (fun t => t.id == teamId.getD "") with
    | none => Except.error "Team not found"
    | some team =>
        if team.memberIds.contains (userId.getD "") then Except.ok team
        else Except.error "Team not found"

/-! Concrete fixtures used by the witness theorems. -/

/-- A stored user with a Microsoft id but no Google id. -/
def aliceUser : UserDoc :=
  { id := "u1"
    email := "alice.example"
    slug := "alice"
    createdAt := 3
    defaultTeamSlug := "teamA"
    displayName := some "Alice"
    avatarUrl := some "a.png"
    googleId := none
    microsoftId := some "m77"
    oAuthAccessToken := [("microsoft", "oldA")]
    oAuthRefreshToken := [("microsoft", "oldR")] }

/-- A benign environment: no invitations, template present, sends succeed. -/
def envA : Env :=
  { invitationCount := fun _ => 0
    hasWelcomeTemplate := true
    sendEmailOk := true
    subscribeOk := true
    now := 9
    newId := "u9" }

/-- An environment whose email send and mailing-list subscribe both fail. -/
def envFail : Env :=
  { invitationCount := fun _ => 0
    hasWelcomeTemplate := true
    sendEmailOk := false
    subscribeOk := false
    now := 9
    newId := "u9" }

/-- An environment in which the welcome EmailTemplate document is missing. -/
def envNoTemplate : Env :=
  { invitationCount := fun _ => 0
    hasWelcomeTemplate := false
    sendEmailOk := true
    subscribeOk := true
    now := 9
    newId := "u9" }

/-- Google sign-in arguments for the stored user, with fresh tokens and
deliberately different displayName and avatarUrl. -/
def argsC1 : SignInArgs :=
  { oauthId := some "g1"
    email := "alice.example"
    oauthToken := some { accessToken := some "newA", refreshToken := some "newR" }
    displayName := "Alice Two"
    avatarUrl := some "b.png" }

/-- Google sign-in arguments matching no stored user. -/
def argsCarol : SignInArgs :=
  { oauthId := some "g2"
    email := "carol.example"
    oauthToken := some { accessToken := some "atk", refreshToken := none }
    displayName := "Carol"
    avatarUrl := none }

/-! Helper lemmas about the embedded operations. -/

theorem strTruthy_some (s : String) : strTruthy (some s) = !s.isEmpty := rfl

theorem mapGet_cons (k0 v0 : String) (rest : List (String × String))
    (k : String) :
    mapGet ((k0, v0) :: rest) k = if k0 = k then some v0 else mapGet rest k := by
  by_cases h : k0 = k
  · simp [mapGet, List.find?, h]
  · have hb : (k0 == k) = false := by simp [h]
    simp [mapGet, List.find?, h, hb]

theorem mapGet_mapSet_self (m : List (String × String)) (k v : String) :
    mapGet (mapSet m k v) k = some v := by
  induction m with
  | nil => simp [mapSet, mapGet, List.find?]
  | cons p rest ih =>
      obtain ⟨k0, v0⟩ := p
      by_cases h : k0 = k
      · simp [mapSet, h, mapGet_cons]
      · simp [mapSet, h, mapGet_cons, ih]

theorem mapGet_mapSet_ne (m : List (String × String)) (k v k2 : String)
    (h : k2 ≠ k) : mapGet (mapSet m k v) k2 = mapGet m k2 := by
  induction m with
  | nil =>
      have hb : (k == k2) = false := by simp [Ne.symm h]
      simp [mapSet, mapGet, List.find?, hb]
  | cons p rest ih =>
      obtain ⟨k0, v0⟩ := p
      by_cases hk : k0 = k
      · subst hk
        simp [mapSet, mapGet_cons, Ne.symm h]
      · simp [mapSet, hk, mapGet_cons, ih]

theorem saveUser_length (store : List UserDoc) (u : UserDoc) :
    (saveUser store u).length = store.length := by
  simp [saveUser]

theorem backfillId_frame (ty : PType) (oid : String) (u : UserDoc) :
    (backfillId ty oid u).id = u.id ∧
    (backfillId ty oid u).email = u.email ∧
    (backfillId ty oid u).slug = u.slug ∧
    (backfillId ty oid u).createdAt = u.createdAt ∧
    (backfillId ty oid u).defaultTeamSlug = u.defaultTeamSlug ∧
    (backfillId ty oid u).displayName = u.displayName ∧
    (backfillId ty oid u).avatarUrl = u.avatarUrl ∧
    (backfillId ty oid u).oAuthAccessToken = u.oAuthAccessToken ∧
    (backfillId ty oid u).oAuthRefreshToken = u.oAuthRefreshToken := by
  unfold backfillId
  split
  · cases ty <;> simp [UserDoc.setProviderId]
  · simp

theorem backfillId_providerId (ty : PType) (oid : String) (u : UserDoc) :
    (backfillId ty oid u).providerId ty =
      if strFalsy (u.providerId ty) then some oid else u.providerId ty := by
  unfold backfillId
  split
  · cases ty <;> simp_all [UserDoc.setProviderId, UserDoc.providerId]
  · simp_all

theorem backfillId_providerId_other (ty ty2 : PType) (oid : String)
    (u : UserDoc) (h : ty2 ≠ ty) :
    (backfillId ty oid u).providerId ty2 = u.providerId ty2 := by
  unfold backfillId
  split
  · cases ty <;> cases ty2 <;>
      simp_all [UserDoc.setProviderId, UserDoc.providerId]
  · rfl

theorem setAccess_frame (ty : PType) (tok : OauthToken) (u : UserDoc) :
    (setAccess ty tok u).id = u.id ∧
    (setAccess ty tok u).email = u.email ∧
    (setAccess ty tok u).slug = u.slug ∧
    (setAccess ty tok u).createdAt = u.createdAt ∧
    (setAccess ty tok u).defaultTeamSlug = u.defaultTeamSlug ∧
    (setAccess ty tok u).displayName = u.displayName ∧
    (setAccess ty tok u).avatarUrl = u.avatarUrl ∧
    (setAccess ty tok u).googleId = u.googleId ∧
    (setAccess ty tok u).microsoftId = u.microsoftId ∧
    (setAccess ty tok u).oAuthRefreshToken = u.oAuthRefreshToken := by
  unfold setAccess
  split <;> simp

theorem setRefresh_frame (ty : PType) (tok : OauthToken) (u : UserDoc) :
    (setRefresh ty tok u).id = u.id ∧
    (setRefresh ty tok u).email = u.email ∧
    (setRefresh ty tok u).slug = u.slug ∧
    (setRefresh ty tok u).createdAt = u.createdAt ∧
    (setRefresh ty tok u).defaultTeamSlug = u.defaultTeamSlug ∧
    (setRefresh ty tok u).displayName = u.displayName ∧
    (setRefresh ty tok u).avatarUrl = u.avatarUrl ∧
    (setRefresh ty tok u).googleId = u.googleId ∧
    (setRefresh ty tok u).microsoftId = u.microsoftId ∧
    (setRefresh ty tok u).oAuthAccessToken = u.oAuthAccessToken := by
  unfold setRefresh
  split <;> simp

theorem providerId_of_ids (u v : UserDoc) (ty : PType)
    (hg : v.googleId = u.googleId) (hm : v.microsoftId = u.microsoftId) :
    v.providerId ty = u.providerId ty := by
  cases ty <;> simp [UserDoc.providerId, hg, hm]

theorem setAccess_token_set (ty : PType) (tok : OauthToken) (u : UserDoc)
    (s : String) (h : tok.accessToken = some s) (h2 : s.isEmpty = false) :
    mapGet (setAccess ty tok u).oAuthAccessToken ty.key = some s := by
  unfold setAccess
  rw [h, strTruthy_some, h2]
  simp [h, mapGet_mapSet_self]

theorem setRefresh_token_set (ty : PType) (tok : OauthToken) (u : UserDoc)
    (s : String) (h : tok.refreshToken = some s) (h2 : s.isEmpty = false) :
    mapGet (setRefresh ty tok u).oAuthRefreshToken ty.key = some s := by
  unfold setRefresh
  rw [h, strTruthy_some, h2]
  simp [h, mapGet_mapSet_self]

theorem setAccess_token_other (ty : PType) (tok : OauthToken) (u : UserDoc)
    (k : String) (h : k ≠ ty.key) :
    mapGet (setAccess ty tok u).oAuthAccessToken k =
      mapGet u.oAuthAccessToken k := by
  unfold setAccess
  split <;> simp [mapGet_mapSet_ne _ _ _ _ h]

theorem setRefresh_token_other (ty : PType) (tok : OauthToken) (u : UserDoc)
    (k : String) (h : k ≠ ty.key) :
    mapGet (setRefresh ty tok u).oAuthRefreshToken k =
      mapGet u.oAuthRefreshToken k := by
  unfold setRefresh
  split <;> simp [mapGet_mapSet_ne _ _ _ _ h]

theorem le_maxSlugLen (taken : List String) (s : String) (h : s ∈ taken) :
    s.length ≤ maxSlugLen taken := by
  induction taken with
  | nil => cases h
  | cons t rest ih =>
      rcases List.mem_cons.mp h with h1 | h1
      · subst h1; exact le_max_left _ _
      · exact le_trans (ih h1) (le_max_right _ _)

theorem padToFresh_length (base : String) (taken : List String) :
    (padToFresh base taken).length = base.length + (maxSlugLen taken + 1) := by
  unfold padToFresh
  rw [String.length_append]
  congr 1
  exact List.length_replicate _ _

theorem padToFresh_not_mem (base : String) (taken : List String) :
    padToFresh base taken ∉ taken := by
  intro hmem
  have h1 := le_maxSlugLen taken _ hmem
  rw [padToFresh_length] at h1
  omega

theorem generateSlug_fresh (store : List UserDoc) (name : String) :
    ∀ u ∈ store, u.slug ≠ generateSlug store name := by
  intro u hu
  have hmem : u.slug ∈ store.map (fun v => v.slug) :=
    List.mem_map_of_mem (fun v => v.slug) hu
  unfold generateSlug
  split
  · intro heq
    exact padToFresh_not_mem name (store.map fun v => v.slug) (heq ▸ hmem)
  · intro heq
    rename_i hnm
    exact hnm (heq ▸ hmem)

theorem find?_append_singleton {α : Type} (p : α → Bool) (l : List α) (x : α)
    (h : l.find? p = none) (hx : p x = true) :
    (l ++ [x]).find? p = some x := by
  induction l with
  | nil => simp [List.find?, hx]
  | cons a rest ih =>
      rw [List.cons_append, List.find?]
      rw [List.find?] at h
      cases hpa : p a with
      | true => rw [hpa] at h; exact absurd h (by simp)
      | false => rw [hpa] at h; exact ih h

theorem welcomeFlow_store {α : Type} (env : Env) (store1 : List UserDoc)
    (email : String) (ret : α) :
    (welcomeFlow env store1 email ret).store = store1 := by
  unfold welcomeFlow
  split <;> rfl

theorem welcomeFlow_result_ok {α : Type} (env : Env) (store1 : List UserDoc)
    (email : String) (ret : α) (h : env.hasWelcomeTemplate = true) :
    (welcomeFlow env store1 email ret).result = Except.ok ret := by
  simp [welcomeFlow, h]

theorem welcomeFlow_result_error {α : Type} (env : Env)
    (store1 : List UserDoc) (email : String) (ret : α)
    (h : env.hasWelcomeTemplate = false) :
    (welcomeFlow env store1 email ret).result =
      Except.error "welcome Email template not found" := by
  simp [welcomeFlow, h]

theorem welcomeFlow_emailAttempts {α : Type} (env : Env)
    (store1 : List UserDoc) (email : String) (ret : α)
    (h : env.hasWelcomeTemplate = true) :
    (welcomeFlow env store1 email ret).effects.emailAttempts =
      if env.invitationCount email = 0 then [email] else [] := by
  unfold welcomeFlow
  by_cases hi : env.invitationCount email = 0 <;>
    by_cases hs : env.subscribeOk = true <;>
    by_cases he : env.sendEmailOk = true <;>
    simp [h, hi, hs, he, Nat.pos_of_ne_zero]

theorem welcomeFlow_mailchimp_log {α : Type} (env : Env)
    (store1 : List UserDoc) (email : String) (ret : α)
    (h : env.hasWelcomeTemplate = true) (hs : env.subscribeOk = false) :
    "Mailchimp error" ∈ (welcomeFlow env store1 email ret).effects.loggedErrors := by
  unfold welcomeFlow
  by_cases hi : env.invitationCount email = 0 <;>
    by_cases he : env.sendEmailOk = true <;>
    simp [h, hi, hs, he, Nat.pos_of_ne_zero]

theorem welcomeFlow_email_log {α : Type} (env : Env) (store1 : List UserDoc)
    (email : String) (ret : α) (h : env.hasWelcomeTemplate = true)
    (he : env.sendEmailOk = false) (hi : env.invitationCount email = 0) :
    "Email sending error" ∈
      (welcomeFlow env store1 email ret).effects.loggedErrors := by
  unfold welcomeFlow
  by_cases hs : env.subscribeOk = true <;> simp [h, hi, hs, he]

theorem tokenSets_frame (ty : PType) (tok : OauthToken) (u : UserDoc) :
    (setRefresh ty tok (setAccess ty tok u)).id = u.id ∧
    (setRefresh ty tok (setAccess ty tok u)).email = u.email ∧
    (setRefresh ty tok (setAccess ty tok u)).slug = u.slug ∧
    (setRefresh ty tok (setAccess ty tok u)).createdAt = u.createdAt ∧
    (setRefresh ty tok (setAccess ty tok u)).defaultTeamSlug =
      u.defaultTeamSlug ∧
    (setRefresh ty tok (setAccess ty tok u)).displayName = u.displayName ∧
    (setRefresh ty tok (setAccess ty tok u)).avatarUrl = u.avatarUrl ∧
    (setRefresh ty tok (setAccess ty tok u)).googleId = u.googleId ∧
    (setRefresh ty tok (setAccess ty tok u)).microsoftId = u.microsoftId := by
  obtain ⟨a1, a2, a3, a4, a5, a6, a7, a8, a9, a10⟩ := setAccess_frame ty tok u
  obtain ⟨r1, r2, r3, r4, r5, r6, r7, r8, r9, r10⟩ :=
    setRefresh_frame ty tok (setAccess ty tok u)
  exact ⟨r1.trans a1, r2.trans a2, r3.trans a3, r4.trans a4, r5.trans a5,
    r6.trans a6, r7.trans a7, r8.trans a8, r9.trans a9⟩

theorem tokenSets_access (ty : PType) (tok : OauthToken) (u : UserDoc)
    (s : String) (h : tok.accessToken = some s) (h2 : s.isEmpty = false) :
    mapGet (setRefresh ty tok (setAccess ty tok u)).oAuthAccessToken ty.key =
      some s := by
  obtain ⟨_, _, _, _, _, _, _, _, _, r10⟩ :=
    setRefresh_frame ty tok (setAccess ty tok u)
  rw [r10]
  exact setAccess_token_set ty tok u s h h2

theorem tokenSets_refresh (ty : PType) (tok : OauthToken) (u : UserDoc)
    (s : String) (h : tok.refreshToken = some s) (h2 : s.isEmpty = false) :
    mapGet (setRefresh ty tok (setAccess ty tok u)).oAuthRefreshToken ty.key =
      some s :=
  setRefresh_token_set ty tok (setAccess ty tok u) s h h2

theorem tokenSets_access_other (ty : PType) (tok : OauthToken) (u : UserDoc)
    (k : String) (hk : k ≠ ty.key) :
    mapGet (setRefresh ty tok (setAccess ty tok u)).oAuthAccessToken k =
      mapGet u.oAuthAccessToken k := by
  obtain ⟨_, _, _, _, _, _, _, _, _, r10⟩ :=
    setRefresh_frame ty tok (setAccess ty tok u)
  rw [r10]
  exact setAccess_token_other ty tok u k hk

theorem tokenSets_refresh_other (ty : PType) (tok : OauthToken) (u : UserDoc)
    (k : String) (hk : k ≠ ty.key) :
    mapGet (setRefresh ty tok (setAccess ty tok u)).oAuthRefreshToken k =
      mapGet u.oAuthRefreshToken k := by
  obtain ⟨_, _, _, _, _, _, _, _, _, a10⟩ := setAccess_frame ty tok u
  rw [setRefresh_token_other ty tok _ k hk, a10]

theorem tokenSets_providerId (ty ty2 : PType) (tok : OauthToken)
    (u : UserDoc) :
    (setRefresh ty tok (setAccess ty tok u)).providerId ty2 =
      u.providerId ty2 := by
  obtain ⟨_, _, _, _, _, _, _, g8, g9⟩ := tokenSets_frame ty tok u
  exact providerId_of_ids u _ ty2 g8 g9

theorem setProviderId_frame (u : UserDoc) (ty : PType) (v : String) :
    (u.setProviderId ty v).id = u.id ∧
    (u.setProviderId ty v).email = u.email ∧
    (u.setProviderId ty v).slug = u.slug ∧
    (u.setProviderId ty v).createdAt = u.createdAt ∧
    (u.setProviderId ty v).defaultTeamSlug = u.defaultTeamSlug ∧
    (u.setProviderId ty v).displayName = u.displayName ∧
    (u.setProviderId ty v).avatarUrl = u.avatarUrl ∧
    (u.setProviderId ty v).oAuthAccessToken = u.oAuthAccessToken ∧
    (u.setProviderId ty v).oAuthRefreshToken = u.oAuthRefreshToken := by
  cases ty <;> simp [UserDoc.setProviderId]

theorem setProviderId_providerId (u : UserDoc) (ty : PType) (v : String) :
    (u.setProviderId ty v).providerId ty = some v := by
  cases ty <;> simp [UserDoc.setProviderId, UserDoc.providerId]

theorem newOauthUser_fields (env : Env) (store : List UserDoc) (ty : PType)
    (a : SignInArgs) :
    (newOauthUser env store ty a).slug = generateSlug store a.displayName ∧
    (newOauthUser env store ty a).email = a.email ∧
    (newOauthUser env store ty a).createdAt = env.now ∧
    (newOauthUser env store ty a).defaultTeamSlug = "" ∧
    (newOauthUser env store ty a).providerId ty = some (a.oauthId.getD "") := by
  obtain ⟨p1, p2, p3, p4, p5, p6, p7, p8, p9⟩ :=
    setProviderId_frame (newOauthBase env store a) ty (a.oauthId.getD "")
  cases hA : a.oauthToken with
  | none =>
      unfold newOauthUser
      rw [hA]
      exact ⟨p3, p2, p4, p5, setProviderId_providerId _ ty _⟩
  | some tok =>
      unfold newOauthUser
      rw [hA]
      obtain ⟨t1, t2, t3, t4, t5, t6, t7, t8, t9⟩ := tokenSets_frame ty tok
        ((newOauthBase env store a).setProviderId ty (a.oauthId.getD ""))
      refine ⟨t3.trans p3, t2.trans p2, t4.trans p4, t5.trans p5, ?_⟩
      rw [tokenSets_providerId ty ty tok _]
      exact setProviderId_providerId _ ty _

theorem newOauthUser_access (env : Env) (store : List UserDoc) (ty : PType)
    (a : SignInArgs) (tok : OauthToken) (s : String)
    (hA : a.oauthToken = some tok) (h : tok.accessToken = some s)
    (h2 : s.isEmpty = false) :
    mapGet (newOauthUser env store ty a).oAuthAccessToken ty.key = some s := by
  unfold newOauthUser
  rw [hA]
  exact tokenSets_access ty tok _ s h h2

theorem newOauthUser_refresh (env : Env) (store : List UserDoc) (ty : PType)
    (a : SignInArgs) (tok : OauthToken) (s : String)
    (hA : a.oauthToken = some tok) (h : tok.refreshToken = some s)
    (h2 : s.isEmpty = false) :
    mapGet (newOauthUser env store ty a).oAuthRefreshToken ty.key = some s := by
  unfold newOauthUser
  rw [hA]
  exact tokenSets_refresh ty tok _ s h h2

theorem signInOrSignUp_eq_found_some (env : Env) (store : List UserDoc)
    (ty : PType) (a : SignInArgs) (tok : OauthToken) (user : UserDoc)
    (h1 : strFalsy a.oauthId = false) (h2 : a.oauthToken = some tok)
    (h3 : findUser store ty a.email (a.oauthId.getD "") = some user) :
    signInOrSignUp env store ty a =
      { result := Except.ok (mergeOauth ty (a.oauthId.getD "") tok user)
        store := saveUser store (mergeOauth ty (a.oauthId.getD "") tok user)
        effects := {} } := by
  unfold signInOrSignUp
  simp [h1, h2, h3]

theorem signInOrSignUp_eq_notfound (env : Env) (store : List UserDoc)
    (ty : PType) (a : SignInArgs)
    (h1 : strFalsy a.oauthId = false)
    (h2 : findUser store ty a.email (a.oauthId.getD "") = none) :
    signInOrSignUp env store ty a =
      welcomeFlow env (store ++ [newOauthUser env store ty a]) a.email
        (newOauthUser env store ty a) := by
  unfold signInOrSignUp
  simp [h1, h2]

theorem signUpByEmail_eq_new (env : Env) (store : List UserDoc)
    (uid email : String)
    (h : store.find? (fun u => u.email == email) = none) :
    signUpByEmail env store uid email =
      welcomeFlow env (store ++ [newEmailUser env store uid email]) email
        (pickPublicFields (newEmailUser env store uid email)) := by
  unfold signUpByEmail
  simp [h]

/-! The claim theorems. -/

/-- Claim C1: for every existing user found by email or provider id,
signInOrSignUp called with a non-empty oauthToken does not create a second
account (the collection keeps its size and is only updated at the found
document); it sets the provider id field only if it was previously unset,
overwrites the per-provider access and refresh token entries for each token
that is supplied, persists the merged record, and returns the
decrypted-view record. -/
theorem signInOrSignUp_attaches_existing (env : Env) (store : List UserDoc)
    (ty : PType) (a : SignInArgs) (tok : OauthToken) (user : UserDoc)
    (h1 : strFalsy a.oauthId = false) (h2 : a.oauthToken = some tok)
    (h3 : findUser store ty a.email (a.oauthId.getD "") = some user) :
    (signInOrSignUp env store ty a).result =
        Except.ok (mergeOauth ty (a.oauthId.getD "") tok user) ∧
    (signInOrSignUp env store ty a).store =
        saveUser store (mergeOauth ty (a.oauthId.getD "") tok user) ∧
    (signInOrSignUp env store ty a).store.length = store.length ∧
    (mergeOauth ty (a.oauthId.getD "") tok user).providerId ty =
        (if strFalsy (user.providerId ty) then some (a.oauthId.getD "")
         else user.providerId ty) ∧
    (∀ s, tok.accessToken = some s → s.isEmpty = false →
        mapGet (mergeOauth ty (a.oauthId.getD "") tok user).oAuthAccessToken
          ty.key = some s) ∧
    (∀ s, tok.refreshToken = some s → s.isEmpty = false →
        mapGet (mergeOauth ty (a.oauthId.getD "") tok user).oAuthRefreshToken
          ty.key = some s) := by
  rw [signInOrSignUp_eq_found_some env store ty a tok user h1 h2 h3]
  refine ⟨rfl, rfl, saveUser_length store _, ?_, ?_, ?_⟩
  · unfold mergeOauth
    rw [tokenSets_providerId ty ty tok (backfillId ty (a.oauthId.getD "") user)]
    exact backfillId_providerId ty (a.oauthId.getD "") user
  · intro s hs hs2
    unfold mergeOauth
    exact tokenSets_access ty tok _ s hs hs2
  · intro s hs hs2
    unfold mergeOauth
    exact tokenSets_refresh ty tok _ s hs hs2

/-- Witness for C1: the concrete call attaches the Google id to the stored
user without growing the collection. -/
theorem signInOrSignUp_attaches_existing_witness :
    (signInOrSignUp envA [aliceUser] PType.google argsC1).store.length =
      [aliceUser].length :=
  (signInOrSignUp_attaches_existing envA [aliceUser] PType.google argsC1
    { accessToken := some "newA", refreshToken := some "newR" } aliceUser
    (by decide) rfl (by decide)).2.2.1

/-- Claim C5: whenever the oauthId argument is absent (JavaScript-falsy),
signInOrSignUp throws "oauthId is required" before any lookup or state
change: the collection is untouched and no side effect fires, whatever the
other arguments are. -/
theorem signInOrSignUp_requires_oauthId (env : Env) (store : List UserDoc)
    (ty : PType) (a : SignInArgs) (h : strFalsy a.oauthId = true) :
    signInOrSignUp env store ty a =
      { result := Except.error "oauthId is required", store := store,
        effects := {} } := by
  unfold signInOrSignUp
  simp [h]

/-- Witness for C5: a concrete call with a missing oauthId throws and
leaves the store unchanged. -/
theorem signInOrSignUp_requires_oauthId_witness :
    signInOrSignUp envA [aliceUser] PType.google
        { oauthId := none, email := "alice.example", oauthToken := none,
          displayName := "X", avatarUrl := none } =
      { result := Except.error "oauthId is required", store := [aliceUser],
        effects := {} } :=
  signInOrSignUp_requires_oauthId envA [aliceUser] PType.google
    { oauthId := none, email := "alice.example", oauthToken := none,
      displayName := "X", avatarUrl := none } (by decide)

/-- Claim C7: for every existing user found by the lookup, if no tokens are
supplied (the token object is empty), signInOrSignUp returns the found
record unchanged, persists nothing and fires no side effect. -/
theorem signInOrSignUp_noTokens_frame (env : Env) (store : List UserDoc)
    (ty : PType) (a : SignInArgs) (user : UserDoc)
    (h1 : strFalsy a.oauthId = false) (h2 : a.oauthToken = none)
    (h3 : findUser store ty a.email (a.oauthId.getD "") = some user) :
    signInOrSignUp env store ty a =
      { result := Except.ok user, store := store, effects := {} } := by
  unfold signInOrSignUp
  simp [h1, h2, h3]

/-- Witness for C7: a concrete tokenless sign-in returns the stored user
and changes nothing. -/
theorem signInOrSignUp_noTokens_frame_witness :
    signInOrSignUp envA [aliceUser] PType.microsoft
        { oauthId := some "m77", email := "other.example", oauthToken := none,
          displayName := "Y", avatarUrl := none } =
      { result := Except.ok aliceUser, store := [aliceUser], effects := {} } :=
  signInOrSignUp_noTokens_frame envA [aliceUser] PType.microsoft
    { oauthId := some "m77", email := "other.example", oauthToken := none,
      displayName := "Y", avatarUrl := none } aliceUser
    (by decide) rfl (by decide)

/-- Claim C10: when signInOrSignUp merges onto an existing user, every
field other than the provider id and the per-provider token entries is
unchanged: id, email, slug, createdAt, defaultTeamSlug, displayName and
avatarUrl keep their stored values even when the call supplies different
ones, the id of the other provider is untouched, and token entries under any
other provider key are untouched. -/
theorem signInOrSignUp_merge_frame (env : Env) (store : List UserDoc)
    (ty : PType) (a : SignInArgs) (tok : OauthToken) (user : UserDoc)
    (h1 : strFalsy a.oauthId = false) (h2 : a.oauthToken = some tok)
    (h3 : findUser store ty a.email (a.oauthId.getD "") = some user) :
    (signInOrSignUp env store ty a).result =
        Except.ok (mergeOauth ty (a.oauthId.getD "") tok user) ∧
    (mergeOauth ty (a.oauthId.getD "") tok user).id = user.id ∧
    (mergeOauth ty (a.oauthId.getD "") tok user).email = user.email ∧
    (mergeOauth ty (a.oauthId.getD "") tok user).slug = user.slug ∧
    (mergeOauth ty (a.oauthId.getD "") tok user).createdAt = user.createdAt ∧
    (mergeOauth ty (a.oauthId.getD "") tok user).defaultTeamSlug =
        user.defaultTeamSlug ∧
    (mergeOauth ty (a.oauthId.getD "") tok user).displayName =
        user.displayName ∧
    (mergeOauth ty (a.oauthId.getD "") tok user).avatarUrl = user.avatarUrl ∧
    (∀ ty2, ty2 ≠ ty →
        (mergeOauth ty (a.oauthId.getD "") tok user).providerId ty2 =
          user.providerId ty2) ∧
    (∀ k, k ≠ ty.key →
        mapGet (mergeOauth ty (a.oauthId.getD "") tok user).oAuthAccessToken
          k = mapGet user.oAuthAccessToken k) ∧
    (∀ k, k ≠ ty.key →
        mapGet (mergeOauth ty (a.oauthId.getD "") tok user).oAuthRefreshToken
          k = mapGet user.oAuthRefreshToken k) := by
  obtain ⟨b1, b2, b3, b4, b5, b6, b7, b8, b9⟩ :=
    backfillId_frame ty (a.oauthId.getD "") user
  obtain ⟨t1, t2, t3, t4, t5, t6, t7, t8, t9⟩ :=
    tokenSets_frame ty tok (backfillId ty (a.oauthId.getD "") user)
  refine ⟨?_, ?_, ?_, ?_, ?_, ?_, ?_, ?_, ?_, ?_, ?_⟩
  · rw [signInOrSignUp_eq_found_some env store ty a tok user h1 h2 h3]
  · exact t1.trans b1
  · exact t2.trans b2
  · exact t3.trans b3
  · exact t4.trans b4
  · exact t5.trans b5
  · exact t6.trans b6
  · exact t7.trans b7
  · intro ty2 hty2
    unfold mergeOauth
    rw [tokenSets_providerId ty ty2 tok (backfillId ty (a.oauthId.getD "") user)]
    exact backfillId_providerId_other ty ty2 (a.oauthId.getD "") user hty2
  · intro k hk
    unfold mergeOauth
    rw [tokenSets_access_other ty tok _ k hk, b8]
  · intro k hk
    unfold mergeOauth
    rw [tokenSets_refresh_other ty tok _ k hk, b9]

/-- Witness for C10: the concrete merge keeps the stored email, slug,
createdAt, displayName and avatarUrl although the call supplied different
values. -/
theorem signInOrSignUp_merge_frame_witness :
    (mergeOauth PType.google "g1"
        { accessToken := some "newA", refreshToken := some "newR" }
        aliceUser).displayName = aliceUser.displayName :=
  (signInOrSignUp_merge_frame envA [aliceUser] PType.google argsC1
    { accessToken := some "newA", refreshToken := some "newR" } aliceUser
    (by decide) rfl (by decide)).2.2.2.2.2.2.1

/-- Claim C2: when no user matches the email or the provider id,
signInOrSignUp creates exactly one new user record (the collection is the
old one with a single appended document), with a unique slug generated
from the display name, the provider id set, the supplied access and
refresh tokens set, createdAt set to the current time, an empty
defaultTeamSlug, and the new record is returned. -/
theorem signInOrSignUp_creates_one (env : Env) (store : List UserDoc)
    (ty : PType) (a : SignInArgs)
    (h1 : strFalsy a.oauthId = false)
    (h2 : findUser store ty a.email (a.oauthId.getD "") = none)
    (h3 : env.hasWelcomeTemplate = true) :
    (signInOrSignUp env store ty a).store =
        store ++ [newOauthUser env store ty a] ∧
    (signInOrSignUp env store ty a).store.length = store.length + 1 ∧
    (signInOrSignUp env store ty a).result =
        Except.ok (newOauthUser env store ty a) ∧
    (newOauthUser env store ty a).slug = generateSlug store a.displayName ∧
    (∀ u ∈ store, u.slug ≠ (newOauthUser env store ty a).slug) ∧
    (newOauthUser env store ty a).providerId ty = some (a.oauthId.getD "") ∧
    (newOauthUser env store ty a).createdAt = env.now ∧
    (newOauthUser env store ty a).defaultTeamSlug = "" ∧
    (newOauthUser env store ty a).email = a.email ∧
    (∀ tok s, a.oauthToken = some tok → tok.accessToken = some s →
        s.isEmpty = false →
        mapGet (newOauthUser env store ty a).oAuthAccessToken ty.key =
          some s) ∧
    (∀ tok s, a.oauthToken = some tok → tok.refreshToken = some s →
        s.isEmpty = false →
        mapGet (newOauthUser env store ty a).oAuthRefreshToken ty.key =
          some s) := by
  have heq := signInOrSignUp_eq_notfound env store ty a h1 h2
  obtain ⟨f1, f2, f3, f4, f5⟩ := newOauthUser_fields env store ty a
  have hstore : (signInOrSignUp env store ty a).store =
      store ++ [newOauthUser env store ty a] := by
    rw [heq, welcomeFlow_store]
  refine ⟨hstore, ?_, ?_, f1, ?_, f5, f3, f4, f2, ?_, ?_⟩
  · rw [hstore]; simp
  · rw [heq]; exact welcomeFlow_result_ok env _ a.email _ h3
  · intro u hu
    rw [f1]
    exact generateSlug_fresh store a.displayName u hu
  · intro tok s hA hs hs2
    exact newOauthUser_access env store ty a tok s hA hs hs2
  · intro tok s hA hs hs2
    exact newOauthUser_refresh env store ty a tok s hA hs hs2

/-- Witness for C2: a concrete sign-in with no matching user grows the
collection by exactly one document. -/
theorem signInOrSignUp_creates_one_witness :
    (signInOrSignUp envA [aliceUser] PType.google argsCarol).store.length =
      [aliceUser].length + 1 :=
  (signInOrSignUp_creates_one envA [aliceUser] PType.google argsCarol
    (by decide) (by decide) rfl).2.1

/-- Claim C3: checkPermissionAndGetTeam returns a team record exactly when
the user id and team id are both present, a team with that id exists, and
the user id is among the memberIds of the team; in every failing case it
throws. -/
theorem checkPermissionAndGetTeam_spec (teams : List TeamDoc)
    (userId teamId : Option String) (t : TeamDoc) :
    checkPermissionAndGetTeam teams userId teamId = Except.ok t ↔
      (strFalsy userId = false ∧ strFalsy teamId = false ∧
       teams.find? (fun tm => tm.id == teamId.getD "") = some t ∧
       t.memberIds.contains (userId.getD "") = true) := by
  by_cases hu : strFalsy userId = true
  · have hg : checkPermissionAndGetTeam teams userId teamId =
        Except.error "Bad data" := by
      unfold checkPermissionAndGetTeam
      rw [if_pos (by simp [hu])]
    rw [hg]
    simp [hu]
  · by_cases ht : strFalsy teamId = true
    · have hg : checkPermissionAndGetTeam teams userId teamId =
          Except.error "Bad data" := by
        unfold checkPermissionAndGetTeam
        rw [if_pos (by simp [ht])]
      rw [hg]
      simp [ht]
    · rw [Bool.not_eq_true] at hu ht
      cases hf : teams.find? (fun tm => tm.id == teamId.getD "") with
      | none =>
          have hg : checkPermissionAndGetTeam teams userId teamId =
              Except.error "Team not found" := by
            unfold checkPermissionAndGetTeam
            rw [if_neg (by simp [hu, ht]), hf]
          rw [hg]
          simp [hu, ht]
      | some tm =>
          have hg : checkPermissionAndGetTeam teams userId teamId =
              (if tm.memberIds.contains (userId.getD "") = true then
                Except.ok tm
              else Except.error "Team not found") := by
            unfold checkPermissionAndGetTeam
            rw [if_neg (by simp [hu, ht]), hf]
          rw [hg]
          by_cases hm : tm.memberIds.contains (userId.getD "") = true
          · rw [if_pos hm]
            constructor
            · intro h
              injection h with h
              subst h
              exact ⟨hu, ht, rfl, hm⟩
            · rintro ⟨_, _, hft, _⟩
              injection hft with hft
              rw [hft]
          · rw [if_neg hm]
            constructor
            · intro h
              cases h
            · rintro ⟨_, _, hft, hct⟩
              injection hft with hft
              subst hft
              exact absurd hct hm

/-- Claim C4: signUpByEmail throws and creates nothing when a user with
the email already exists; on success the _id of the returned projection is the
caller-supplied uid, and a second sign-up with the same address fails. -/
theorem signUpByEmail_duplicate (env : Env) (store : List UserDoc)
    (uid email uid2 : String) (h3 : env.hasWelcomeTemplate = true) :
    ((store.find? (fun u => u.email == email)).isSome →
        signUpByEmail env store uid email =
          { result := Except.error "User already exists", store := store,
            effects := {} }) ∧
    (store.find? (fun u => u.email == email) = none →
        (signUpByEmail env store uid email).result =
            Except.ok (pickPublicFields (newEmailUser env store uid email)) ∧
        (pickPublicFields (newEmailUser env store uid email)).id = uid ∧
        (signUpByEmail env (signUpByEmail env store uid email).store uid2
            email).result = Except.error "User already exists") := by
  constructor
  · intro hs
    obtain ⟨u, hu⟩ := Option.isSome_iff_exists.mp hs
    unfold signUpByEmail
    rw [hu]
  · intro hn
    have heq := signUpByEmail_eq_new env store uid email hn
    refine ⟨?_, rfl, ?_⟩
    · rw [heq]
      exact welcomeFlow_result_ok env _ email _ h3
    · have hstore : (signUpByEmail env store uid email).store =
          store ++ [newEmailUser env store uid email] := by
        rw [heq, welcomeFlow_store]
      have hfind : ((store ++ [newEmailUser env store uid email]).find?
          (fun u => u.email == email)) =
            some (newEmailUser env store uid email) :=
        find?_append_singleton _ store _ hn (by simp [newEmailUser])
      rw [hstore]
      unfold signUpByEmail
      rw [hfind]

/-- Witness for C4: concretely, signing up a fresh address succeeds and
repeating it is rejected. -/
theorem signUpByEmail_duplicate_witness :
    (signUpByEmail envA
        (signUpByEmail envA [] "id1" "bob.example").store "id2"
        "bob.example").result = Except.error "User already exists" :=
  ((signUpByEmail_duplicate envA [] "id1" "bob.example" "id2" rfl).2
    (by decide)).2.2

/-- Claim C6: in the new-user branch of signInOrSignUp and in
signUpByEmail, the welcome email is sent (the send fires) if and only if
no open invitation exists for the email; with at least one matching
Invitation document, no welcome email is sent. -/
theorem welcomeEmail_iff_no_invitation (env : Env)
    (store1 store2 : List UserDoc) (ty : PType) (a : SignInArgs)
    (uid email2 : String)
    (h1 : strFalsy a.oauthId = false)
    (h2 : findUser store1 ty a.email (a.oauthId.getD "") = none)
    (h3 : env.hasWelcomeTemplate = true)
    (h4 : store2.find? (fun u => u.email == email2) = none) :
    ((signInOrSignUp env store1 ty a).effects.emailAttempts ≠ [] ↔
        env.invitationCount a.email = 0) ∧
    ((signUpByEmail env store2 uid email2).effects.emailAttempts ≠ [] ↔
        env.invitationCount email2 = 0) := by
  constructor
  · rw [signInOrSignUp_eq_notfound env store1 ty a h1 h2,
      welcomeFlow_emailAttempts _ _ _ _ h3]
    by_cases hi : env.invitationCount a.email = 0 <;> simp [hi]
  · rw [signUpByEmail_eq_new env store2 uid email2 h4,
      welcomeFlow_emailAttempts _ _ _ _ h3]
    by_cases hi : env.invitationCount email2 = 0 <;> simp [hi]

/-- Witness for C6: with no pending invitation the concrete sign-up fires
the welcome email. -/
theorem welcomeEmail_iff_no_invitation_witness :
    (signUpByEmail envA [] "id3" "dora.example").effects.emailAttempts ≠ [] :=
  ((welcomeEmail_iff_no_invitation envA [] [] PType.google argsCarol "id3"
      "dora.example" (by decide) (by decide) rfl rfl).2).mpr rfl

/-- Claim C8: a failure of the welcome-email send or of the mailing-list
subscription never propagates out of signInOrSignUp (new-user branch) or
signUpByEmail: both still return the created record, and the failure is
only logged. -/
theorem sideEffectFailures_not_propagated (env : Env)
    (store1 store2 : List UserDoc) (ty : PType) (a : SignInArgs)
    (uid email2 : String)
    (h1 : strFalsy a.oauthId = false)
    (h2 : findUser store1 ty a.email (a.oauthId.getD "") = none)
    (h3 : env.hasWelcomeTemplate = true)
    (h4 : store2.find? (fun u => u.email == email2) = none) :
    (signInOrSignUp env store1 ty a).result =
        Except.ok (newOauthUser env store1 ty a) ∧
    (env.subscribeOk = false → "Mailchimp error" ∈
        (signInOrSignUp env store1 ty a).effects.loggedErrors) ∧
    (env.sendEmailOk = false → env.invitationCount a.email = 0 →
        "Email sending error" ∈
          (signInOrSignUp env store1 ty a).effects.loggedErrors) ∧
    (signUpByEmail env store2 uid email2).result =
        Except.ok (pickPublicFields (newEmailUser env store2 uid email2)) ∧
    (env.subscribeOk = false → "Mailchimp error" ∈
        (signUpByEmail env store2 uid email2).effects.loggedErrors) ∧
    (env.sendEmailOk = false → env.invitationCount email2 = 0 →
        "Email sending error" ∈
          (signUpByEmail env store2 uid email2).effects.loggedErrors) := by
  rw [signInOrSignUp_eq_notfound env store1 ty a h1 h2,
    signUpByEmail_eq_new env store2 uid email2 h4]
  exact ⟨welcomeFlow_result_ok _ _ _ _ h3,
    fun hs => welcomeFlow_mailchimp_log _ _ _ _ h3 hs,
    fun he hi => welcomeFlow_email_log _ _ _ _ h3 he hi,
    welcomeFlow_result_ok _ _ _ _ h3,
    fun hs => welcomeFlow_mailchimp_log _ _ _ _ h3 hs,
    fun he hi => welcomeFlow_email_log _ _ _ _ h3 he hi⟩

/-- Witness for C8: with both side-effect services failing, the concrete
sign-in still returns the created record. -/
theorem sideEffectFailures_not_propagated_witness :
    (signInOrSignUp envFail [] PType.google argsCarol).result =
      Except.ok (newOauthUser envFail [] PType.google argsCarol) :=
  (sideEffectFailures_not_propagated envFail [] [] PType.google argsCarol
    "id4" "erin.example" (by decide) (by decide) rfl rfl).1

/-- Claim C9: when the welcome EmailTemplate document is missing, both
signInOrSignUp (new-user branch) and signUpByEmail throw
"welcome Email template not found" after the new user has been persisted:
the error propagates while the created document stays in the store. -/
theorem welcomeTemplate_missing_after_persist (env : Env)
    (store1 store2 : List UserDoc) (ty : PType) (a : SignInArgs)
    (uid email2 : String)
    (h1 : strFalsy a.oauthId = false)
    (h2 : findUser store1 ty a.email (a.oauthId.getD "") = none)
    (h3 : env.hasWelcomeTemplate = false)
    (h4 : store2.find? (fun u => u.email == email2) = none) :
    (signInOrSignUp env store1 ty a).result =
        Except.error "welcome Email template not found" ∧
    (signInOrSignUp env store1 ty a).store =
        store1 ++ [newOauthUser env store1 ty a] ∧
    (signUpByEmail env store2 uid email2).result =
        Except.error "welcome Email template not found" ∧
    (signUpByEmail env store2 uid email2).store =
        store2 ++ [newEmailUser env store2 uid email2] := by
  rw [signInOrSignUp_eq_notfound env store1 ty a h1 h2,
    signUpByEmail_eq_new env store2 uid email2 h4]
  exact ⟨welcomeFlow_result_error _ _ _ _ h3, welcomeFlow_store _ _ _ _,
    welcomeFlow_result_error _ _ _ _ h3, welcomeFlow_store _ _ _ _⟩

/-- Witness for C9: concretely, the missing template leaves the freshly
created user persisted while the call throws. -/
theorem welcomeTemplate_missing_after_persist_witness :
    (signInOrSignUp envNoTemplate [] PType.google argsCarol).store =
      [] ++ [newOauthUser envNoTemplate [] PType.google argsCarol] :=
  (welcomeTemplate_missing_after_persist envNoTemplate [] [] PType.google
    argsCarol "id5" "finn.example" (by decide) (by decide) rfl rfl).2.1

end SaaS
